import Mathlib

/-!
BBTransBot — verification of the transcription core.

Shallow embedding of the transcription orchestrator of `transcriber.py` and of
the progress-callback bridge of `bot.py`, together with theorems settling the
spec's claims about them.

Modelling conventions:
* Network calls are modelled by their observable outcomes: an operation handed
  to the retry executor is a function from the attempt index to an `OpResult`
  (success value, `aiohttp.ClientError`-class failure, or any other exception).
* The poll loop of `transcribe_audio` consumes a list of successive outcomes of
  the (retried) status request; the session is assumed to be open (the
  `self.session is None` guard is a lifecycle error outside these claims).
* Side effects relevant to the claims (setting the stop event, awaiting the
  estimator task, sleeping, invoking the progress callback) are recorded as an
  explicit event trace.
* Wall-clock time in the progress estimator is measured in integer
  milliseconds; the arithmetic on it is exact rational arithmetic, so
  `elapsed/duration * (end-start)` is represented without rounding by the
  integer `elapsed_ms * (end-start)` over `duration_ms`.  Python's `int()`
  truncates toward zero, which is `Int.tdiv` on that fraction.
-/

namespace BBTransBot

/-! ## Configuration constants (config.py) -/

/-- config.py: maximum upload size in bytes (500 MB). -/
def MAX_FILE_SIZE : Nat := 500 * 1024 * 1024

/-- config.py: SUPPORTED_FORMATS["audio"]. -/
def SUPPORTED_FORMATS_audio : List String := ["mp3", "wav", "ogg", "m4a", "flac"]

/-- config.py: SUPPORTED_FORMATS["video"]. -/
def SUPPORTED_FORMATS_video : List String := ["mp4", "avi", "mov", "mkv", "wmv"]

/-- config.py: MESSAGES["processing_error"]. -/
def MESSAGES_processing_error : String :=
  "❌ Произошла ошибка при обработке файла. Попробуйте еще раз."

/-- config.py: MESSAGES["unsupported_format"]. -/
def MESSAGES_unsupported_format : String :=
  "❌ Неподдерживаемый формат файла.\n\nПоддерживаемые форматы:\n🎵 Аудио: MP3, WAV, OGG, M4A, FLAC\n🎥 Видео: MP4, AVI, MOV, MKV, WMV"

/-! ## Retry executor (`Transcriber._retry_request`) -/

/-- Outcome of one invocation of the operation handed to `_retry_request`:
either it returns a value, raises an exception of the `aiohttp.ClientError`
class (the class caught by the executor — note that
`aiohttp.ClientResponseError`, which `resp.raise_for_status()` raises on an
HTTP 4xx/5xx response, is a subclass of `aiohttp.ClientError`), or raises an
exception outside that class (e.g. the `OSError` of a failing `open()` inside
the upload operation). -/
inductive OpResult (α : Type) where
  | ok (value : α)
  | clientError (message : String)
  | otherError (message : String)
deriving DecidableEq, Repr

/-- Result of `_retry_request` as observed by its caller. -/
inductive RetryOutcome (α : Type) where
  /-- The operation returned a value. -/
  | ok (value : α)
  /-- `TranscriptionError` raised on the last attempt (network budget
  exhausted); carries the message and the default progress 0. -/
  | networkExhausted (message : String) (progress : Nat)
  /-- A non-`ClientError` exception propagated unchanged. -/
  | propagated (message : String)
  /-- `max_retries = 0`: the `for` loop body never runs and the Python
  function falls through, returning `None`. -/
  | noResult
deriving DecidableEq, Repr

/-- Observable behaviour of one `_retry_request` call: final outcome, number of
invocations of the operation, and the list of back-off sleeps (seconds)
performed between consecutive attempts, in order. -/
structure RetryResult (α : Type) where
  outcome : RetryOutcome α
  attempts : Nat
  sleeps : List Nat
deriving DecidableEq, Repr

/-- The message of the `TranscriptionError` raised when the retry budget is
exhausted: `f"Ошибка сети после {max_retries} попыток: {str(e)}"`. -/
def networkErrorMessage (max_retries : Nat) (m : String) : String :=
  "Ошибка сети после " ++ toString max_retries ++ " попыток: " ++ m

/-- One iteration of the `for attempt in range(max_retries)` loop of
`_retry_request`, starting at index `attempt` with `fuel = max_retries -
attempt` iterations left. -/
def retryGo (func : Nat → OpResult α) (max_retries delay : Nat) :
    Nat → Nat → RetryResult α
  | _, 0 => ⟨.noResult, 0, []⟩
  | attempt, fuel + 1 =>
    match func attempt with
    | .ok v => ⟨.ok v, 1, []⟩
    | .otherError m => ⟨.propagated m, 1, []⟩
    | .clientError m =>
      if attempt = max_retries - 1 then
        ⟨.networkExhausted (networkErrorMessage max_retries m) 0, 1, []⟩
      else
        let r := retryGo func max_retries delay (attempt + 1) fuel
        ⟨r.outcome, r.attempts + 1, delay * (attempt + 1) :: r.sleeps⟩

/-- `Transcriber._retry_request(func, max_retries, delay)`.  The source's
default arguments are `max_retries=3, delay=1`. -/
def _retry_request (func : Nat → OpResult α) (max_retries delay : Nat) :
    RetryResult α :=
  retryGo func max_retries delay 0 max_retries

/-! ## Error-code table (`Transcriber.get_error_message`) -/

/-- `Transcriber.get_error_message`: the fixed remote-error-code table with its
default. -/
def get_error_message (code : String) : String :=
  if code = "audio_too_long" then "слишком долгое аудио"
  else if code = "audio_too_short" then "слишком короткое аудио"
  else if code = "invalid_audio" then "неверный формат аудио"
  else if code = "file_too_large" then "слишком большой файл"
  else if code = "rate_limit_exceeded" then "превышен лимит запросов"
  else if code = "insufficient_credits" then "недостаточно кредитов"
  else if code = "internal_error" then "внутренняя ошибка сервиса"
  else "неизвестная ошибка"

/-! ## Event-trace model of the poller, the façade and the estimator -/

/-- Shape of the `callback` argument as the source inspects it:
absent (falsy), a plain synchronous callable, or a coroutine function
(`asyncio.iscoroutinefunction(callback)` true). -/
inductive CallbackKind where
  | none
  | sync
  | async
deriving DecidableEq, Repr

/-- Observable side effects of the transcription core, in order of
occurrence: spawning the estimator task, setting the shared stop event,
awaiting the estimator task, sleeping in the poll loop (seconds), and
invoking the progress callback with a percentage and optional error
message. -/
inductive PollEvent where
  | spawnTask
  | setStopEvent
  | awaitTask
  | sleepPoll (secs : Nat)
  | callbackTick (pct : Nat) (msg : Option String)
deriving DecidableEq, Repr

abbrev Events := List PollEvent

/-- The JSON body of one `GET /transcript/{id}` response, restricted to the
fields the source reads: `status`, optional `text`, optional `error_code`. -/
structure TranscriptInfo where
  status : String
  text : Option String
  error_code : Option String
deriving DecidableEq, Repr

/-- Outcome of one already-retried network call as seen by the poller /
façade: a value, a raised `TranscriptionError` (message, progress), or any
other exception. -/
inductive CoreResult (α : Type) where
  | ok (value : α)
  | transcriptionError (message : String) (progress : Nat)
  | exn (message : String)
deriving DecidableEq, Repr

/-- How `transcribe_audio` terminates: returning a text, raising a
`TranscriptionError(message, progress)`, raising some other exception, or
(model only) running out of supplied status responses while still polling. -/
inductive PollOutcome where
  | success (text : String)
  | failed (message : String) (progress : Nat)
  | raised (message : String)
  | pending
deriving DecidableEq, Repr

/-- The source's `if callback and asyncio.iscoroutinefunction(callback): await
callback(...) elif callback: callback(...)` pair: a tick is delivered exactly
when a callback is present. -/
def tickIf (cb : CallbackKind) (pct : Nat) (msg : Option String) : Events :=
  if cb = CallbackKind.none then [] else [PollEvent.callbackTick pct msg]

/-- `if task: await task` in the terminal branches of the poll loop. -/
def awaitIf (spawned : Bool) : Events :=
  if spawned then [PollEvent.awaitTask] else []

/-- The `finally` clause of `transcribe_audio` for an estimator task that is
still running when the poll loop raises: set the stop event and await it. -/
def finallyCleanup (spawned : Bool) : Events :=
  if spawned then [PollEvent.setStopEvent, PollEvent.awaitTask] else []

/-- The `while True` poll loop of `transcribe_audio` (lines 186-222), driven
by the successive outcomes of the retried status request.  A
`transcriptionError`/`exn` outcome of the status request propagates out of the
loop through the `finally` clause; a `completed` status sets the stop event,
awaits the estimator task, delivers a 100% tick and then checks the text
(`info.get('text', '')` is falsy exactly for an absent field or the empty
string); an `error` status sets the stop event, awaits the task, delivers a
95% tick carrying the mapped message and raises; any other status sleeps 3
seconds and re-polls. -/
def pollEvents (cb : CallbackKind) (spawned : Bool) :
    List (CoreResult TranscriptInfo) → Events × PollOutcome
  | [] => ([], .pending)
  | .transcriptionError m p :: _ => (finallyCleanup spawned, .failed m p)
  | .exn m :: _ => (finallyCleanup spawned, .raised m)
  | .ok info :: rest =>
    if info.status = "completed" then
      (PollEvent.setStopEvent :: (awaitIf spawned ++ tickIf cb 100 none),
       if info.text.getD "" = "" then
         .failed "Получен пустой текст транскрипции" 100
       else .success (info.text.getD ""))
    else if info.status = "error" then
      (PollEvent.setStopEvent :: (awaitIf spawned ++
         tickIf cb 95 (some (get_error_message (info.error_code.getD "unknown")))),
       .failed (get_error_message (info.error_code.getD "unknown")) 95)
    else
      (PollEvent.sleepPoll 3 :: (pollEvents cb spawned rest).1,
       (pollEvents cb spawned rest).2)

/-- `Transcriber.transcribe_audio` from the submit step on, with an open
session.  `createResult` is the outcome of the retried `POST /transcript`;
`statusResults` the successive outcomes of the retried status request.  The
estimator task is spawned exactly when the callback is a coroutine function.
If the submit step raises, the local `task` is never assigned, so the
`finally` clause's `if task` raises `UnboundLocalError` in place of the
original exception. -/
def transcribe_audio (cb : CallbackKind) (createResult : CoreResult (Option String))
    (statusResults : List (CoreResult TranscriptInfo)) : Events × PollOutcome :=
  match createResult with
  | .ok _id =>
    let spawned := cb == CallbackKind.async
    let r := pollEvents cb spawned statusResults
    ((if spawned then [PollEvent.spawnTask] else []) ++ r.1, r.2)
  | .transcriptionError _ _ => ([], .raised "UnboundLocalError")
  | .exn _ => ([], .raised "UnboundLocalError")

/-- `Transcriber.upload_file` with an open session: the size guard, then the
retried upload whose outcome (`_retry_request(_upload)` followed by
`data.get('upload_url')`) is the `uploadResult` parameter. -/
def upload_file (size : Nat) (uploadResult : CoreResult (Option String)) :
    CoreResult (Option String) :=
  if size > MAX_FILE_SIZE then
    .transcriptionError "Файл слишком большой для загрузки" 0
  else uploadResult

/-- The string `process_file` returns when it catches a `TranscriptionError`:
`f"{MESSAGES.get('processing_error','')}\n❌ {e.message}"`. -/
def errorText (m : String) : String :=
  MESSAGES_processing_error ++ "\n❌ " ++ m

/-- How `process_file` terminates: a returned string (transcript, composed
error text, or the unsupported-format message), a propagated non-
`TranscriptionError` exception, or (model only) exhaustion of the supplied
status responses. -/
inductive ProcOutcome where
  | text (s : String)
  | raised (message : String)
  | pending
deriving DecidableEq, Repr

/-- The `except TranscriptionError` clause of `process_file` applied to the
outcome of `transcribe_audio`. -/
def finishTranscribe : PollOutcome → ProcOutcome
  | .success t => .text t
  | .failed m _ => .text (errorText m)
  | .raised m => .raised m
  | .pending => .pending

/-- `Transcriber.process_file`.  `ext` is the extension after
`lstrip('.')`; `size` the size of the input file (checked by `upload_file` on
the audio path); `extractOk` whether ffmpeg exited with code 0;
`extractedSize` the size of the extracted audio (video path). -/
def process_file (ext : String) (size : Nat) (extractOk : Bool)
    (extractedSize : Nat) (uploadResult : CoreResult (Option String))
    (createResult : CoreResult (Option String))
    (statusResults : List (CoreResult TranscriptInfo)) (cb : CallbackKind) :
    Events × ProcOutcome :=
  if ext ∈ SUPPORTED_FORMATS_video then
    let e0 := tickIf cb 0 none
    if extractOk = false then
      (e0, .text (errorText "Не удалось извлечь аудио"))
    else if extractedSize > MAX_FILE_SIZE then
      (e0, .text (errorText "Аудио слишком большое после извлечения"))
    else
      match upload_file extractedSize uploadResult with
      | .transcriptionError m _ => (e0 ++ tickIf cb 20 none, .text (errorText m))
      | .exn m => (e0 ++ tickIf cb 20 none, .raised m)
      | .ok _url =>
        let r := transcribe_audio cb createResult statusResults
        (e0 ++ tickIf cb 20 none ++ tickIf cb 30 none ++ r.1, finishTranscribe r.2)
  else if ext ∈ SUPPORTED_FORMATS_audio then
    let e0 := tickIf cb 0 none
    match upload_file size uploadResult with
    | .transcriptionError m _ => (e0, .text (errorText m))
    | .exn m => (e0, .raised m)
    | .ok _url =>
      let r := transcribe_audio cb createResult statusResults
      (e0 ++ tickIf cb 20 none ++ r.1, finishTranscribe r.2)
  else ([], .text MESSAGES_unsupported_format)

/-! ## Progress estimator (`Transcriber._simulate_progress`)

Wall-clock time is measured in integer milliseconds.  On real numbers the
source computes `int(elapsed / duration * (end - start))`; with
`elapsed = e/1000` and `duration = d/1000` seconds this fraction is exactly
`e * (end - start) / d`, and Python's `int()` truncation toward zero is
`Int.tdiv` of its numerator by its denominator. -/

/-- One pass of the `while not self._stop_event.is_set()` loop.  Each `sched`
entry is what the iteration observes: the stop flag and the elapsed
milliseconds.  Returns the percentages passed to the callback and the sleeps
performed (milliseconds, a fixed 500 each). -/
def simulateLoop (start endB : Int) (duration_ms : Nat) :
    List (Bool × Nat) → List Int × List Nat
  | [] => ([], [])
  | (stopped, elapsed) :: rest =>
    if stopped then ([], [])
    else if duration_ms ≤ elapsed then ([], [])
    else
      (min (start + Int.tdiv ((elapsed : Int) * (endB - start)) (duration_ms : Int)) endB
         :: (simulateLoop start endB duration_ms rest).1,
       500 :: (simulateLoop start endB duration_ms rest).2)

/-- `Transcriber._simulate_progress(start, end, duration, callback)`: returns
immediately when no callback is supplied, otherwise runs the tick loop.  The
source swallows callback exceptions, so a tick is delivered on every
iteration either way. -/
def simulate_progress (hasCallback : Bool) (start endB : Int) (duration_ms : Nat)
    (sched : List (Bool × Nat)) : List Int × List Nat :=
  if hasCallback then simulateLoop start endB duration_ms sched else ([], [])

/-! ## Callback bridge display sink (`bot.update_progress`) -/

/-- `Transcriber.get_progress_bar`.  The dot count
`int(percentage / 100 * total_dots)` is exact rational truncation
`Int.tdiv (percentage * 10) 100` (the float computation of the source agrees
on every clamped integer percentage). -/
def get_progress_bar (percentage : Int) (error_message : Option String) : String :=
  match error_message with
  | some m => "❌ " ++ m
  | none =>
    String.join (List.replicate (Int.tdiv (percentage * 10) 100).toNat "🟢") ++
    String.join (List.replicate ((10 - Int.tdiv (percentage * 10) 100).toNat) "⚪") ++
    " " ++ toString percentage ++ "%"

/-- `bot.update_progress`: clamps the incoming percentage to `[0, 100]`
(`max(0, min(100, percentage))`) and renders the bar for the clamped value.
Returns the value actually rendered together with the bar text. -/
def update_progress (percentage : Int) (error_message : Option String) :
    Int × String :=
  (max 0 (min 100 percentage),
   get_progress_bar (max 0 (min 100 percentage)) error_message)

/-! ## Predicates used by the theorems -/

/-- A status-request outcome that keeps the poll loop running: a successful
read whose status is neither `completed` nor `error`. -/
def nonTerminalOk : CoreResult TranscriptInfo → Bool
  | .ok info => info.status != "completed" && info.status != "error"
  | _ => false

/-- A callback tick carrying an error message (the error variant of a
progress update). -/
def isErrorTick : PollEvent → Bool
  | .callbackTick _ (some _) => true
  | _ => false

/-! ## Helper lemmas shared by several claims -/

/-- The audio and video extension lists of the configuration are disjoint. -/
theorem audio_not_video {ext : String} (h : ext ∈ SUPPORTED_FORMATS_audio) :
    ext ∉ SUPPORTED_FORMATS_video := by
  fin_cases h <;> decide

/-- A prefix of poll responses that are all successful non-terminal status
reads only adds one three-second sleep per response and leaves the rest of the
run unchanged. -/
theorem pollEvents_append_nonterminal (cb : CallbackKind) (sp : Bool)
    (pres rest : List (CoreResult TranscriptInfo))
    (h : ∀ r ∈ pres, nonTerminalOk r = true) :
    pollEvents cb sp (pres ++ rest) =
      (List.replicate pres.length (PollEvent.sleepPoll 3) ++ (pollEvents cb sp rest).1,
       (pollEvents cb sp rest).2) := by
  induction pres with
  | nil => simp
  | cons r pres ih =>
    have ih' := ih (fun r hr => h r (List.mem_cons_of_mem _ hr))
    have hr := h r (List.mem_cons_self _ _)
    match r with
    | .ok info =>
      simp only [nonTerminalOk, Bool.and_eq_true, bne_iff_ne, ne_eq] at hr
      simp [pollEvents, hr.1, hr.2, ih', List.replicate_succ]
    | .transcriptionError m p => simp [nonTerminalOk] at hr
    | .exn m => simp [nonTerminalOk] at hr

/-- The poll loop never produces a task-spawn event (only `transcribe_audio`
does, before entering the loop). -/
theorem pollEvents_no_spawn (cb : CallbackKind) (sp : Bool)
    (sr : List (CoreResult TranscriptInfo)) :
    PollEvent.spawnTask ∉ (pollEvents cb sp sr).1 := by
  induction sr with
  | nil => simp [pollEvents]
  | cons r rest ih =>
    match r with
    | .transcriptionError m p =>
      cases sp <;> simp [pollEvents, finallyCleanup]
    | .exn m =>
      cases sp <;> simp [pollEvents, finallyCleanup]
    | .ok info =>
      by_cases hc : info.status = "completed"
      · cases sp <;> cases cb <;>
          simp [pollEvents, hc, awaitIf, tickIf]
      · by_cases he : info.status = "error"
        · cases sp <;> cases cb <;>
            simp [pollEvents, hc, he, awaitIf, tickIf]
        · simpa [pollEvents, hc, he] using ih

/-- A run reaching a `completed` status with non-empty text returns that text
unchanged. -/
theorem transcribe_completed_nonempty (cb : CallbackKind) (cr : Option String)
    (pres : List (CoreResult TranscriptInfo))
    (h : ∀ r ∈ pres, nonTerminalOk r = true) (t : String) (ht : t ≠ "")
    (ec : Option String) :
    (transcribe_audio cb (.ok cr)
        (pres ++ [.ok ⟨"completed", some t, ec⟩])).2 = .success t := by
  simp [transcribe_audio, pollEvents_append_nonterminal cb _ pres _ h, pollEvents, ht]

/-! ## Claims C1 and C2 -/

/-- C1: for an operation raising a transient network error on every
invocation, `_retry_request` with `max_retries = 3, delay = 1` invokes the
operation exactly 3 times, sleeps `delay * attemptNumber` between consecutive
attempts (here `[1*1, 1*2]`, cumulative wait `1 + 2 = 3`), and ends by raising
the network-exhausted `TranscriptionError` wrapping the message of the last
underlying error (the one of attempt index 2). -/
theorem retry_always_network_error_exhausts (msgs : Nat → String) :
    _retry_request (fun n => (OpResult.clientError (msgs n) : OpResult Unit)) 3 1 =
      ⟨RetryOutcome.networkExhausted ("Ошибка сети после 3 попыток: " ++ msgs 2) 0,
       3, [1 * 1, 1 * 2]⟩ ∧
    (_retry_request (fun n => (OpResult.clientError (msgs n) : OpResult Unit)) 3 1).sleeps.sum
      = 1 * 1 + 1 * 2 := by
  refine ⟨?_, ?_⟩ <;> rfl

/-- C2 counterexample: the example the claim names — an HTTP 4xx
business-error response — is raised by `resp.raise_for_status()` as
`aiohttp.ClientResponseError`, a subclass of `aiohttp.ClientError`, so
`_retry_request` catches it and retries it like a network failure: an
operation whose every invocation yields a 400 response is invoked 3 times
with back-off sleeps `[1, 2]` and ends in the network-exhausted wrap.  It
does not propagate immediately after the first invocation, refuting the
claim at this concrete input. -/
theorem http_4xx_retried_cex :
    _retry_request
        (fun _ => (OpResult.clientError "400, message=Bad Request" : OpResult Unit)) 3 1 =
      ⟨RetryOutcome.networkExhausted
         "Ошибка сети после 3 попыток: 400, message=Bad Request" 0, 3, [1, 2]⟩ := by
  rfl

/-- C2 (amended): an operation whose first invocation fails with an exception
outside the `aiohttp.ClientError` class is not retried: `_retry_request`
performs exactly one invocation, no back-off sleep, and the failure
propagates unchanged.  HTTP 4xx business-error responses are not such
failures: `raise_for_status` raises a `ClientError` subclass for them, and
they are retried (see the counterexample). -/
theorem retry_non_network_error_propagates {α : Type} (func : Nat → OpResult α)
    (max_retries delay : Nat) (m : String)
    (hmr : 0 < max_retries) (h0 : func 0 = OpResult.otherError m) :
    _retry_request func max_retries delay = ⟨RetryOutcome.propagated m, 1, []⟩ := by
  obtain ⟨k, rfl⟩ : ∃ k, max_retries = k + 1 :=
    ⟨max_retries - 1, (Nat.succ_pred_eq_of_pos hmr).symm⟩
  unfold _retry_request
  simp [retryGo, h0]

/-- Witness for C2 (amended) at the concrete call-site parameters
(`max_retries=3, delay=1`) and an operation failing outside the
`aiohttp.ClientError` class: the `FileNotFoundError` that `open(file_path)`
inside the upload operation raises for a missing file. -/
theorem retry_non_network_error_propagates_witness :
    _retry_request
        (fun _ => (OpResult.otherError "FileNotFoundError: no such file" : OpResult Unit))
        3 1 =
      ⟨RetryOutcome.propagated "FileNotFoundError: no such file", 1, []⟩ :=
  retry_non_network_error_propagates
    (fun _ => (OpResult.otherError "FileNotFoundError: no such file" : OpResult Unit)) 3 1
    "FileNotFoundError: no such file" (by decide) rfl

/-! ## Claim C3 -/

/-- C3 counterexample: the remote reports `completed` with the
whitespace-only text " "; the claim says the poller must raise the
empty-text `TranscriptionFailure`, but `if not text` is false for a
non-empty whitespace string, so the poller returns the text. -/
theorem completed_whitespace_text_returned_cex :
    (transcribe_audio .async (.ok (some "id"))
        [.ok ⟨"completed", some " ", Option.none⟩]).2 = .success " " := by
  rfl

/-- C3 (amended): on a `completed` status the poller raises the same
`TranscriptionFailure` ("Получен пустой текст транскрипции", progress 100)
when the text field is absent or is the empty string, and returns the text
whenever it is a non-empty string — including a whitespace-only one. -/
theorem completed_empty_text_policy (cb : CallbackKind) (cr : Option String)
    (ec : Option String) (pres : List (CoreResult TranscriptInfo))
    (h : ∀ r ∈ pres, nonTerminalOk r = true) (t : String) (ht : t ≠ "") :
    (transcribe_audio cb (.ok cr)
        (pres ++ [.ok ⟨"completed", Option.none, ec⟩])).2 =
      .failed "Получен пустой текст транскрипции" 100 ∧
    (transcribe_audio cb (.ok cr)
        (pres ++ [.ok ⟨"completed", some "", ec⟩])).2 =
      .failed "Получен пустой текст транскрипции" 100 ∧
    (transcribe_audio cb (.ok cr)
        (pres ++ [.ok ⟨"completed", some t, ec⟩])).2 = .success t := by
  refine ⟨?_, ?_, transcribe_completed_nonempty cb cr pres h t ht ec⟩ <;>
    simp [transcribe_audio, pollEvents_append_nonterminal cb _ pres _ h, pollEvents]

/-- Witness for C3 (amended) at a one-response run, with the whitespace-only
text " " as the returned non-empty text. -/
theorem completed_empty_text_policy_witness :
    (transcribe_audio .async (.ok (some "id"))
        ([] ++ [.ok ⟨"completed", Option.none, Option.none⟩])).2 =
      .failed "Получен пустой текст транскрипции" 100 ∧
    (transcribe_audio .async (.ok (some "id"))
        ([] ++ [.ok ⟨"completed", some "", Option.none⟩])).2 =
      .failed "Получен пустой текст транскрипции" 100 ∧
    (transcribe_audio .async (.ok (some "id"))
        ([] ++ [.ok ⟨"completed", some " ", Option.none⟩])).2 = .success " " :=
  completed_empty_text_policy .async (some "id") Option.none []
    (by decide) " " (by decide)

/-! ## Claim C4 -/

/-- C4: a polling run (asynchronous callback, so an estimator task exists)
whose status sequence is any number of non-terminal reads followed by
`error` with `error_code = "rate_limit_exceeded"` sets the stop event, awaits
the estimator task, then delivers a single final tick `(95, "превышен лимит
запросов")` — never 100 — and raises `TranscriptionError` with that message
and progress 95.  Moreover the error-code table maps the seven known codes to
their fixed messages and every other code to the default message. -/
theorem rate_limit_error_run (cr : Option String)
    (pres : List (CoreResult TranscriptInfo))
    (h : ∀ r ∈ pres, nonTerminalOk r = true) :
    transcribe_audio .async (.ok cr)
        (pres ++ [.ok ⟨"error", Option.none, some "rate_limit_exceeded"⟩]) =
      (PollEvent.spawnTask ::
         (List.replicate pres.length (PollEvent.sleepPoll 3) ++
          [PollEvent.setStopEvent, PollEvent.awaitTask,
           PollEvent.callbackTick 95 (some "превышен лимит запросов")]),
       PollOutcome.failed "превышен лимит запросов" 95) ∧
    (∀ m, PollEvent.callbackTick 100 m ∉
      (transcribe_audio .async (.ok cr)
        (pres ++ [.ok ⟨"error", Option.none, some "rate_limit_exceeded"⟩])).1) ∧
    get_error_message "audio_too_long" = "слишком долгое аудио" ∧
    get_error_message "audio_too_short" = "слишком короткое аудио" ∧
    get_error_message "invalid_audio" = "неверный формат аудио" ∧
    get_error_message "file_too_large" = "слишком большой файл" ∧
    get_error_message "rate_limit_exceeded" = "превышен лимит запросов" ∧
    get_error_message "insufficient_credits" = "недостаточно кредитов" ∧
    get_error_message "internal_error" = "внутренняя ошибка сервиса" ∧
    ∀ c, c ∉ ["audio_too_long", "audio_too_short", "invalid_audio",
        "file_too_large", "rate_limit_exceeded", "insufficient_credits",
        "internal_error"] → get_error_message c = "неизвестная ошибка" := by
  have hmain : transcribe_audio .async (.ok cr)
      (pres ++ [.ok ⟨"error", Option.none, some "rate_limit_exceeded"⟩]) =
      (PollEvent.spawnTask ::
         (List.replicate pres.length (PollEvent.sleepPoll 3) ++
          [PollEvent.setStopEvent, PollEvent.awaitTask,
           PollEvent.callbackTick 95 (some "превышен лимит запросов")]),
       PollOutcome.failed "превышен лимит запросов" 95) := by
    simp [transcribe_audio, pollEvents_append_nonterminal _ _ pres _ h, pollEvents,
      awaitIf, tickIf, get_error_message]
  refine ⟨hmain, ?_, rfl, rfl, rfl, rfl, rfl, rfl, rfl, ?_⟩
  · intro m
    rw [hmain]
    simp [List.mem_replicate]
  · intro c hc
    simp only [List.mem_cons, List.not_mem_nil, or_false, not_or] at hc
    obtain ⟨h1, h2, h3, h4, h5, h6, h7⟩ := hc
    simp [get_error_message, h1, h2, h3, h4, h5, h6, h7]

/-- Witness for C4 with one `processing` read before the error, and an
unknown code exercising the default of the table. -/
theorem rate_limit_error_run_witness :
    transcribe_audio .async (.ok (some "id"))
        ([.ok ⟨"processing", Option.none, Option.none⟩] ++
         [.ok ⟨"error", Option.none, some "rate_limit_exceeded"⟩]) =
      (PollEvent.spawnTask ::
         (List.replicate 1 (PollEvent.sleepPoll 3) ++
          [PollEvent.setStopEvent, PollEvent.awaitTask,
           PollEvent.callbackTick 95 (some "превышен лимит запросов")]),
       PollOutcome.failed "превышен лимит запросов" 95) ∧
    get_error_message "some_future_code" = "неизвестная ошибка" := by
  have h := rate_limit_error_run (some "id")
    [.ok ⟨"processing", Option.none, Option.none⟩] (by decide)
  exact ⟨h.1, h.2.2.2.2.2.2.2.2.2 "some_future_code" (by decide)⟩

/-! ## Claim C5 -/

/-- C5 (round-trip): for an audio-extension input of size under the maximum,
when upload and submit succeed and the remote eventually reports `completed`
with a non-empty text, `process_file` returns exactly that text, unmodified,
for any callback shape. -/
theorem audio_roundtrip (ext : String) (hext : ext ∈ SUPPORTED_FORMATS_audio)
    (size : Nat) (hsize : size < MAX_FILE_SIZE) (eo : Bool) (es : Nat)
    (url cr : Option String) (pres : List (CoreResult TranscriptInfo))
    (hpres : ∀ r ∈ pres, nonTerminalOk r = true) (t : String) (ht : t ≠ "")
    (ec : Option String) (cb : CallbackKind) :
    (process_file ext size eo es (.ok url) (.ok cr)
        (pres ++ [.ok ⟨"completed", some t, ec⟩]) cb).2 = .text t := by
  have hv := audio_not_video hext
  have hu : upload_file size (.ok url) = .ok url := by
    unfold upload_file
    rw [if_neg (by omega)]
  simp [process_file, hv, hext, hu, finishTranscribe,
    transcribe_completed_nonempty cb cr pres hpres t ht ec]

/-- Witness for C5: a 1 KB mp3, a one-response run completing with
"hello", synchronous callback. -/
theorem audio_roundtrip_witness :
    (process_file "mp3" 1024 true 0 (.ok (some "u")) (.ok (some "i"))
        ([] ++ [.ok ⟨"completed", some "hello", Option.none⟩]) .sync).2 =
      .text "hello" :=
  audio_roundtrip "mp3" (by decide) 1024 (by decide) true 0 (some "u") (some "i")
    [] (by decide) "hello" (by decide) Option.none .sync

/-! ## Claim C6 -/

/-- C6 counterexample: an oversize audio input with an asynchronous callback.
`process_file` returns the composed error text, but the only callback tick
ever delivered is the initial `(0, no message)`: no final error-variant tick
reaches the callback before control returns to the caller, contradicting the
claim for the oversize-input failure path. -/
theorem no_error_tick_on_oversize_cex :
    (process_file "mp3" (MAX_FILE_SIZE + 1) true 0 (.ok (some "u"))
        (.ok (some "i")) [] .async).1 = [PollEvent.callbackTick 0 Option.none] ∧
    (process_file "mp3" (MAX_FILE_SIZE + 1) true 0 (.ok (some "u"))
        (.ok (some "i")) [] .async).2 =
      .text (errorText "Файл слишком большой для загрузки") ∧
    ((process_file "mp3" (MAX_FILE_SIZE + 1) true 0 (.ok (some "u"))
        (.ok (some "i")) [] .async).1.any isErrorTick) = false := by
  exact ⟨rfl, rfl, rfl⟩

/-- C6 (amended): only the remote-`error` failure path delivers a final
error-variant tick (95 with the mapped message) before control returns.  The
oversize-input and extraction-failure paths, and retry-budget exhaustion at
the upload or the status-check call site, return the composed error text
without any error-variant tick (on either façade path); retry-budget
exhaustion at the submit call site does not even reach the composed error
text — the `finally` clause of `transcribe_audio` references the unbound
local `task` and a raw `UnboundLocalError` propagates out of `process_file`,
again with no error-variant tick; and the empty-result-text path delivers a
plain success tick (100, no message) before the failure is converted to the
composed error text. -/
theorem failure_tick_policy :
    (∀ (cb : CallbackKind) (cr : Option String) (code : String)
        (pres : List (CoreResult TranscriptInfo)), cb ≠ CallbackKind.none →
      (∀ r ∈ pres, nonTerminalOk r = true) →
      PollEvent.callbackTick 95 (some (get_error_message code)) ∈
        (transcribe_audio cb (.ok cr)
          (pres ++ [.ok ⟨"error", Option.none, some code⟩])).1) ∧
    (∀ (cb : CallbackKind) (ext : String) (size : Nat) (eo : Bool) (es : Nat)
        (ur cr : CoreResult (Option String))
        (sr : List (CoreResult TranscriptInfo)),
      ext ∈ SUPPORTED_FORMATS_audio → MAX_FILE_SIZE < size →
      ((process_file ext size eo es ur cr sr cb).1.any isErrorTick) = false ∧
      (process_file ext size eo es ur cr sr cb).2 =
        .text (errorText "Файл слишком большой для загрузки")) ∧
    (∀ (cb : CallbackKind) (ext : String) (size es : Nat)
        (ur cr : CoreResult (Option String))
        (sr : List (CoreResult TranscriptInfo)),
      ext ∈ SUPPORTED_FORMATS_video →
      ((process_file ext size false es ur cr sr cb).1.any isErrorTick) = false ∧
      (process_file ext size false es ur cr sr cb).2 =
        .text (errorText "Не удалось извлечь аудио")) ∧
    (∀ (cb : CallbackKind) (ext : String) (size : Nat) (eo : Bool) (es : Nat)
        (m : String) (p : Nat) (cr : CoreResult (Option String))
        (sr : List (CoreResult TranscriptInfo)),
      ext ∈ SUPPORTED_FORMATS_audio → size ≤ MAX_FILE_SIZE →
      ((process_file ext size eo es (.transcriptionError m p) cr sr cb).1.any
          isErrorTick) = false ∧
      (process_file ext size eo es (.transcriptionError m p) cr sr cb).2 =
        .text (errorText m)) ∧
    (∀ (cb : CallbackKind) (ext : String) (size es : Nat) (m : String) (p : Nat)
        (cr : CoreResult (Option String))
        (sr : List (CoreResult TranscriptInfo)),
      ext ∈ SUPPORTED_FORMATS_video → es ≤ MAX_FILE_SIZE →
      ((process_file ext size true es (.transcriptionError m p) cr sr cb).1.any
          isErrorTick) = false ∧
      (process_file ext size true es (.transcriptionError m p) cr sr cb).2 =
        .text (errorText m)) ∧
    (∀ (cb : CallbackKind) (ext : String) (size : Nat) (eo : Bool) (es : Nat)
        (url : Option String) (m : String) (p : Nat)
        (sr : List (CoreResult TranscriptInfo)),
      ext ∈ SUPPORTED_FORMATS_audio → size ≤ MAX_FILE_SIZE →
      ((process_file ext size eo es (.ok url) (.transcriptionError m p)
          sr cb).1.any isErrorTick) = false ∧
      (process_file ext size eo es (.ok url) (.transcriptionError m p)
          sr cb).2 = .raised "UnboundLocalError") ∧
    (∀ (cb : CallbackKind) (ext : String) (size es : Nat) (url : Option String)
        (m : String) (p : Nat) (sr : List (CoreResult TranscriptInfo)),
      ext ∈ SUPPORTED_FORMATS_video → es ≤ MAX_FILE_SIZE →
      ((process_file ext size true es (.ok url) (.transcriptionError m p)
          sr cb).1.any isErrorTick) = false ∧
      (process_file ext size true es (.ok url) (.transcriptionError m p)
          sr cb).2 = .raised "UnboundLocalError") ∧
    (∀ (cb : CallbackKind) (ext : String) (size : Nat) (eo : Bool) (es : Nat)
        (url cr : Option String) (m : String) (p : Nat)
        (pres : List (CoreResult TranscriptInfo)),
      ext ∈ SUPPORTED_FORMATS_audio → size ≤ MAX_FILE_SIZE →
      (∀ r ∈ pres, nonTerminalOk r = true) →
      ((process_file ext size eo es (.ok url) (.ok cr)
          (pres ++ [.transcriptionError m p]) cb).1.any isErrorTick) = false ∧
      (process_file ext size eo es (.ok url) (.ok cr)
          (pres ++ [.transcriptionError m p]) cb).2 = .text (errorText m)) ∧
    (∀ (cb : CallbackKind) (ext : String) (size es : Nat)
        (url cr : Option String) (m : String) (p : Nat)
        (pres : List (CoreResult TranscriptInfo)),
      ext ∈ SUPPORTED_FORMATS_video → es ≤ MAX_FILE_SIZE →
      (∀ r ∈ pres, nonTerminalOk r = true) →
      ((process_file ext size true es (.ok url) (.ok cr)
          (pres ++ [.transcriptionError m p]) cb).1.any isErrorTick) = false ∧
      (process_file ext size true es (.ok url) (.ok cr)
          (pres ++ [.transcriptionError m p]) cb).2 = .text (errorText m)) ∧
    (∀ (cb : CallbackKind) (cr ec : Option String)
        (pres : List (CoreResult TranscriptInfo)), cb ≠ CallbackKind.none →
      (∀ r ∈ pres, nonTerminalOk r = true) →
      ((transcribe_audio cb (.ok cr)
          (pres ++ [.ok ⟨"completed", some "", ec⟩])).1.any isErrorTick) = false ∧
      PollEvent.callbackTick 100 Option.none ∈
        (transcribe_audio cb (.ok cr)
          (pres ++ [.ok ⟨"completed", some "", ec⟩])).1 ∧
      (transcribe_audio cb (.ok cr)
          (pres ++ [.ok ⟨"completed", some "", ec⟩])).2 =
        .failed "Получен пустой текст транскрипции" 100) := by
  refine ⟨?_, ?_, ?_, ?_, ?_, ?_, ?_, ?_, ?_, ?_⟩
  · intro cb cr code pres hcb hpres
    cases cb with
    | none => exact absurd rfl hcb
    | sync =>
      simp [transcribe_audio, pollEvents_append_nonterminal _ _ pres _ hpres,
        pollEvents, awaitIf, tickIf]
    | async =>
      simp [transcribe_audio, pollEvents_append_nonterminal _ _ pres _ hpres,
        pollEvents, awaitIf, tickIf]
  · intro cb ext size eo es ur cr sr hext hsz
    have hv := audio_not_video hext
    have hu : upload_file size ur =
        .transcriptionError "Файл слишком большой для загрузки" 0 := by
      unfold upload_file
      rw [if_pos (by omega)]
    cases cb <;>
      simp [process_file, hv, hext, hu, tickIf, isErrorTick]
  · intro cb ext size es ur cr sr hext
    cases cb <;>
      simp [process_file, hext, tickIf, isErrorTick]
  · intro cb ext size eo es m p cr sr hext hsz
    have hv := audio_not_video hext
    have hu : upload_file size (.transcriptionError m p) =
        .transcriptionError m p := by
      unfold upload_file
      rw [if_neg (by omega)]
    cases cb <;>
      simp [process_file, hv, hext, hu, tickIf, isErrorTick]
  · intro cb ext size es m p cr sr hext hes
    have hu : upload_file es (.transcriptionError m p) =
        .transcriptionError m p := by
      unfold upload_file
      rw [if_neg (by omega)]
    cases cb <;>
      simp [process_file, hext, hu, tickIf, isErrorTick, Nat.not_lt.mpr hes]
  · intro cb ext size eo es url m p sr hext hsz
    have hv := audio_not_video hext
    have hu : upload_file size (.ok url) = .ok url := by
      unfold upload_file
      rw [if_neg (by omega)]
    cases cb <;>
      simp [process_file, hv, hext, hu, transcribe_audio, finishTranscribe,
        tickIf, isErrorTick]
  · intro cb ext size es url m p sr hext hes
    have hu : upload_file es (.ok url) = .ok url := by
      unfold upload_file
      rw [if_neg (by omega)]
    cases cb <;>
      simp [process_file, hext, hu, transcribe_audio, finishTranscribe,
        tickIf, isErrorTick, Nat.not_lt.mpr hes]
  · intro cb ext size eo es url cr m p pres hext hsz hpres
    have hv := audio_not_video hext
    have hu : upload_file size (.ok url) = .ok url := by
      unfold upload_file
      rw [if_neg (by omega)]
    cases cb <;>
      simp [process_file, hv, hext, hu, transcribe_audio,
        pollEvents_append_nonterminal _ _ pres _ hpres, pollEvents,
        finallyCleanup, finishTranscribe, tickIf, isErrorTick,
        List.any_eq_false, List.mem_replicate]
  · intro cb ext size es url cr m p pres hext hes hpres
    have hu : upload_file es (.ok url) = .ok url := by
      unfold upload_file
      rw [if_neg (by omega)]
    cases cb <;>
      simp [process_file, hext, hu, transcribe_audio,
        pollEvents_append_nonterminal _ _ pres _ hpres, pollEvents,
        finallyCleanup, finishTranscribe, tickIf, isErrorTick,
        List.any_eq_false, List.mem_replicate, Nat.not_lt.mpr hes]
  · intro cb cr ec pres hcb hpres
    cases cb with
    | none => exact absurd rfl hcb
    | sync =>
      refine ⟨?_, ?_, ?_⟩ <;>
        simp [transcribe_audio, pollEvents_append_nonterminal _ _ pres _ hpres,
          pollEvents, awaitIf, tickIf, isErrorTick, List.any_eq_false,
          List.mem_replicate]
    | async =>
      refine ⟨?_, ?_, ?_⟩ <;>
        simp [transcribe_audio, pollEvents_append_nonterminal _ _ pres _ hpres,
          pollEvents, awaitIf, tickIf, isErrorTick, List.any_eq_false,
          List.mem_replicate]

/-- Witness for C6 (amended), one concrete run per conjunct: the remote-error
tick, the oversize path, the extraction-failure path, upload-site exhaustion
on both façade paths, submit-site exhaustion on both paths (raw
`UnboundLocalError`), status-site exhaustion on both paths, and the
empty-text path. -/
theorem failure_tick_policy_witness :
    PollEvent.callbackTick 95 (some (get_error_message "internal_error")) ∈
      (transcribe_audio .async (.ok (some "id"))
        ([] ++ [.ok ⟨"error", Option.none, some "internal_error"⟩])).1 ∧
    ((process_file "mp3" (MAX_FILE_SIZE + 1) true 0 (.ok (some "u"))
        (.ok (some "i")) [] .sync).1.any isErrorTick) = false ∧
    ((process_file "mp4" 1024 false 0 (.ok (some "u"))
        (.ok (some "i")) [] .sync).1.any isErrorTick) = false ∧
    ((process_file "mp3" 1024 true 0
        (.transcriptionError "Ошибка сети после 3 попыток: boom" 0)
        (.ok (some "i")) [] .sync).1.any isErrorTick) = false ∧
    ((process_file "mp4" 2048 true 1024
        (.transcriptionError "Ошибка сети после 3 попыток: boom" 0)
        (.ok (some "i")) [] .sync).1.any isErrorTick) = false ∧
    (process_file "mp3" 1024 true 0 (.ok (some "u"))
        (.transcriptionError "Ошибка сети после 3 попыток: boom" 0) []
        .sync).2 = .raised "UnboundLocalError" ∧
    (process_file "mp4" 2048 true 1024 (.ok (some "u"))
        (.transcriptionError "Ошибка сети после 3 попыток: boom" 0) []
        .sync).2 = .raised "UnboundLocalError" ∧
    (process_file "mp3" 1024 true 0 (.ok (some "u")) (.ok (some "i"))
        ([.ok ⟨"processing", Option.none, Option.none⟩] ++
         [.transcriptionError "Ошибка сети после 3 попыток: boom" 0])
        .sync).2 = .text (errorText "Ошибка сети после 3 попыток: boom") ∧
    ((process_file "mp4" 2048 true 1024 (.ok (some "u")) (.ok (some "i"))
        ([] ++ [.transcriptionError "Ошибка сети после 3 попыток: boom" 0])
        .async).1.any isErrorTick) = false ∧
    PollEvent.callbackTick 100 Option.none ∈
      (transcribe_audio .sync (.ok (some "id"))
        ([] ++ [.ok ⟨"completed", some "", Option.none⟩])).1 := by
  have h := failure_tick_policy
  refine ⟨h.1 .async (some "id") "internal_error" [] (by decide) (by decide),
    (h.2.1 .sync "mp3" (MAX_FILE_SIZE + 1) true 0 (.ok (some "u"))
      (.ok (some "i")) [] (by decide) (by decide)).1,
    (h.2.2.1 .sync "mp4" 1024 0 (.ok (some "u")) (.ok (some "i")) []
      (by decide)).1,
    (h.2.2.2.1 .sync "mp3" 1024 true 0 "Ошибка сети после 3 попыток: boom" 0
      (.ok (some "i")) [] (by decide) (by decide)).1,
    (h.2.2.2.2.1 .sync "mp4" 2048 1024 "Ошибка сети после 3 попыток: boom" 0
      (.ok (some "i")) [] (by decide) (by decide)).1,
    (h.2.2.2.2.2.1 .sync "mp3" 1024 true 0 (some "u")
      "Ошибка сети после 3 попыток: boom" 0 [] (by decide) (by decide)).2,
    (h.2.2.2.2.2.2.1 .sync "mp4" 2048 1024 (some "u")
      "Ошибка сети после 3 попыток: boom" 0 [] (by decide) (by decide)).2,
    (h.2.2.2.2.2.2.2.1 .sync "mp3" 1024 true 0 (some "u") (some "i")
      "Ошибка сети после 3 попыток: boom" 0
      [.ok ⟨"processing", Option.none, Option.none⟩] (by decide) (by decide)
      (by decide)).2,
    (h.2.2.2.2.2.2.2.2.1 .async "mp4" 2048 1024 (some "u") (some "i")
      "Ошибка сети после 3 попыток: boom" 0 [] (by decide) (by decide)
      (by decide)).1,
    (h.2.2.2.2.2.2.2.2.2 .sync (some "id") Option.none [] (by decide)
      (by decide)).2.1⟩

/-! ## Claim C7 -/

/-- On nonnegative operands, real floor agrees with the truncating division
the estimator performs: for natural `e`, `d` and nonnegative integer `k`,
the floor of `(e / d) * k` over the rationals is the truncated quotient of
`e * k` by `d`. -/
theorem floor_scaled (e d : Nat) (k : Int) (hk : 0 ≤ k) :
    Int.floor (((e : ℚ) / (d : ℚ)) * ((k : Int) : ℚ)) =
      Int.tdiv ((e : Int) * k) (d : Int) := by
  rcases Nat.eq_zero_or_pos d with hd | hd
  · subst hd
    norm_num
  · have h1 : ((e : ℚ) / (d : ℚ)) * ((k : Int) : ℚ) =
        ((((e : Int) * k : Int) : ℚ) / ((d : ℕ) : ℚ)) := by
      push_cast
      ring
    rw [h1, Rat.floor_intCast_div_natCast]
    exact (Int.tdiv_eq_ediv (mul_nonneg (Int.natCast_nonneg e) hk)
      (Int.natCast_nonneg d)).symm

/-- Closed form of the estimator loop when the start bound does not exceed
the end bound: it emits one tick per iteration, on every iteration while the
stop flag is unset and elapsed time is below the duration, each tick being
the clamped interpolation formula, and sleeps 500 ms after each tick. -/
theorem simulateLoop_formula (start endB : Int) (duration_ms : Nat)
    (h : start ≤ endB) (sched : List (Bool × Nat)) :
    simulateLoop start endB duration_ms sched =
      ((sched.takeWhile fun p => !p.1 && decide (p.2 < duration_ms)).map
         (fun p => min (start + Int.floor (((p.2 : ℚ) / (duration_ms : ℚ)) *
           ((endB : ℚ) - (start : ℚ)))) endB),
       List.replicate
         ((sched.takeWhile fun p => !p.1 && decide (p.2 < duration_ms)).length)
         500) := by
  induction sched with
  | nil => rfl
  | cons q rest ih =>
    obtain ⟨b, e⟩ := q
    cases b with
    | true => simp [simulateLoop, List.takeWhile]
    | false =>
      by_cases he : e < duration_ms
      · have hfl : Int.floor (((e : ℚ) / (duration_ms : ℚ)) *
            ((endB : ℚ) - (start : ℚ))) =
            Int.tdiv ((e : Int) * (endB - start)) (duration_ms : Int) := by
          have hf := floor_scaled e duration_ms (endB - start) (by omega)
          rw [Int.cast_sub] at hf
          exact hf
        simp [simulateLoop, List.takeWhile, he, Nat.not_le.mpr he, hfl, ih,
          List.replicate_succ]
      · simp [simulateLoop, List.takeWhile, he, Nat.le_of_not_lt he]

/-- C7 counterexample: two iterations observing the same elapsed time 0 (the
estimator was started with `start=30, end=95, duration=30s`).  The computed
percentage does not increase, yet the callback is invoked on both iterations:
the source has no did-it-increase check, contradicting the claim that onTick
is invoked only if the value increased since the last tick. -/
theorem duplicate_tick_cex :
    simulate_progress true 30 95 30000 [(false, 0), (false, 0)] =
      ([30, 30], [500, 500]) := by
  rfl

/-- C7 (amended): on each iteration, while the stop flag is unset and elapsed
time is below the duration, the computed percentage is
`start + floor(elapsed/duration * (end - start))` clamped to `end`, the
callback is invoked with that value on every iteration — whether or not it
increased since the last tick — and the estimator then sleeps a fixed 500 ms.
(Stated for `start ≤ end`, which holds at every call site: 0, 20 or 30 up to
95.) -/
theorem simulate_progress_formula (start endB : Int) (duration_ms : Nat)
    (sched : List (Bool × Nat)) (h : start ≤ endB) :
    (simulate_progress true start endB duration_ms sched).1 =
      (sched.takeWhile fun p => !p.1 && decide (p.2 < duration_ms)).map
        (fun p => min (start + Int.floor (((p.2 : ℚ) / (duration_ms : ℚ)) *
          ((endB : ℚ) - (start : ℚ)))) endB) ∧
    (simulate_progress true start endB duration_ms sched).2 =
      List.replicate
        ((sched.takeWhile fun p => !p.1 && decide (p.2 < duration_ms)).length)
        500 := by
  have hl := simulateLoop_formula start endB duration_ms h sched
  constructor
  · simp [simulate_progress, hl]
  · simp [simulate_progress, hl]

/-- Witness for C7 (amended) at the call-site bounds 30 to 95 over 30 s, one
iteration at elapsed 1000 ms. -/
theorem simulate_progress_formula_witness :
    (30 : Int) ≤ 95 ∧
    ((simulate_progress true 30 95 30000 [(false, 1000)]).1 =
      ([(false, (1000 : Nat))].takeWhile fun p => !p.1 && decide (p.2 < 30000)).map
        (fun p => min (30 + Int.floor (((p.2 : ℚ) / ((30000 : Nat) : ℚ)) *
          ((95 : ℚ) - (30 : ℚ)))) 95) ∧
    (simulate_progress true 30 95 30000 [(false, 1000)]).2 =
      List.replicate
        (([(false, (1000 : Nat))].takeWhile fun p => !p.1 && decide (p.2 < 30000)).length)
        500) :=
  ⟨by decide, simulate_progress_formula 30 95 30000 [(false, 1000)] (by decide)⟩

/-! ## Claim C8 -/

/-- Every percentage the estimator loop emits is clamped, so it never exceeds
the end bound. -/
theorem simulateLoop_le_end (start endB : Int) (duration_ms : Nat) :
    ∀ (sched : List (Bool × Nat)) (p : Int),
      p ∈ (simulateLoop start endB duration_ms sched).1 → p ≤ endB := by
  intro sched
  induction sched with
  | nil =>
    intro p hp
    simp [simulateLoop] at hp
  | cons q rest ih =>
    obtain ⟨b, e⟩ := q
    intro p hp
    cases b with
    | true => simp [simulateLoop] at hp
    | false =>
      by_cases he : duration_ms ≤ e
      · simp [simulateLoop, he] at hp
      · simp only [simulateLoop, Bool.false_eq_true, if_false, if_neg he,
          List.mem_cons] at hp
        rcases hp with rfl | hp
        · exact min_le_right _ _
        · exact ih p hp

/-- C8: for every invocation of the progress estimator (with or without a
callback, any bounds, any duration, any schedule of observations — including
iterations whose elapsed time exceeds the duration) every emitted tick is at
most the configured end bound. -/
theorem estimator_never_exceeds_end (hasCb : Bool) (start endB : Int)
    (duration_ms : Nat) (sched : List (Bool × Nat)) (p : Int)
    (hp : p ∈ (simulate_progress hasCb start endB duration_ms sched).1) :
    p ≤ endB := by
  cases hasCb with
  | false => simp [simulate_progress] at hp
  | true =>
    exact simulateLoop_le_end start endB duration_ms sched p
      (by simpa [simulate_progress] using hp)

/-- Witness for C8: the first tick of a concrete run (elapsed already past
the 95% mark computation) is bounded by 95. -/
theorem estimator_never_exceeds_end_witness :
    (94 : Int) ∈ (simulate_progress true 30 95 30000 [(false, 29999)]).1 ∧
    (94 : Int) ≤ 95 :=
  ⟨by decide,
   estimator_never_exceeds_end true 30 95 30000 [(false, 29999)] 94 (by decide)⟩

/-! ## Claim C9 -/

/-- C9: whatever percentage the estimator or poller hands to the display
sink `bot.update_progress`, the value actually rendered is first clamped to
`[0, 100]`, and the rendered bar is built from that clamped value. -/
theorem callback_bridge_clamped (p : Int) (err : Option String) :
    0 ≤ (update_progress p err).1 ∧ (update_progress p err).1 ≤ 100 ∧
    (update_progress p err).2 = get_progress_bar (update_progress p err).1 err :=
  ⟨le_max_left 0 _, max_le (by norm_num) (min_le_left _ _), rfl⟩

/-! ## Claim C10 -/

/-- ticks produced by the poll loop for a synchronous callback (no estimator
task, `spawned = false`) are terminal only: 100 with no message, or 95 with a
mapped error message. -/
theorem pollEvents_sync_tick_shape (sr : List (CoreResult TranscriptInfo))
    (pct : Nat) (msg : Option String)
    (hmem : PollEvent.callbackTick pct msg ∈ (pollEvents .sync false sr).1) :
    (pct = 100 ∧ msg = Option.none) ∨
    (pct = 95 ∧ ∃ code, msg = some (get_error_message code)) := by
  induction sr with
  | nil => simp [pollEvents] at hmem
  | cons r rest ih =>
    match r with
    | .transcriptionError m p => simp [pollEvents, finallyCleanup] at hmem
    | .exn m => simp [pollEvents, finallyCleanup] at hmem
    | .ok info =>
      by_cases hc : info.status = "completed"
      · simp [pollEvents, hc, awaitIf, tickIf] at hmem
        exact Or.inl hmem
      · by_cases he : info.status = "error"
        · simp [pollEvents, hc, he, awaitIf, tickIf] at hmem
          exact Or.inr ⟨hmem.1, info.error_code.getD "unknown", hmem.2⟩
        · simp only [pollEvents, hc, he, if_false, List.mem_cons] at hmem
          rcases hmem with hmem | hmem
          · exact absurd hmem (by simp)
          · exact ih hmem

/-- The poll loop delivers no tick at all when no callback was supplied. -/
theorem pollEvents_none_no_tick (sp : Bool)
    (sr : List (CoreResult TranscriptInfo)) (pct : Nat) (msg : Option String) :
    PollEvent.callbackTick pct msg ∉ (pollEvents CallbackKind.none sp sr).1 := by
  induction sr with
  | nil => simp [pollEvents]
  | cons r rest ih =>
    match r with
    | .transcriptionError m p =>
      cases sp <;> simp [pollEvents, finallyCleanup]
    | .exn m =>
      cases sp <;> simp [pollEvents, finallyCleanup]
    | .ok info =>
      by_cases hc : info.status = "completed"
      · cases sp <;> simp [pollEvents, hc, awaitIf, tickIf]
      · by_cases he : info.status = "error"
        · cases sp <;> simp [pollEvents, hc, he, awaitIf, tickIf]
        · simpa [pollEvents, hc, he] using ih

/-- C10: the poller spawns the estimator task iff the callback is a coroutine
function: with an asynchronous callback and a successful submit the task is
spawned; with any other callback shape it never is, so no simulated
intermediate percentages are delivered during the polling phase — a
synchronous sink receives only the terminal tick (100 plain, or 95 with a
mapped message), and an absent sink receives nothing. -/
theorem estimator_spawn_iff_async_callback :
    (∀ (cr : Option String) (sr : List (CoreResult TranscriptInfo)),
      PollEvent.spawnTask ∈ (transcribe_audio .async (.ok cr) sr).1) ∧
    (∀ (cb : CallbackKind) (cr : CoreResult (Option String))
        (sr : List (CoreResult TranscriptInfo)), cb ≠ CallbackKind.async →
      PollEvent.spawnTask ∉ (transcribe_audio cb cr sr).1) ∧
    (∀ (cr : Option String) (sr : List (CoreResult TranscriptInfo))
        (pct : Nat) (msg : Option String),
      PollEvent.callbackTick pct msg ∈ (transcribe_audio .sync (.ok cr) sr).1 →
      (pct = 100 ∧ msg = Option.none) ∨
      (pct = 95 ∧ ∃ code, msg = some (get_error_message code))) ∧
    (∀ (cr : CoreResult (Option String))
        (sr : List (CoreResult TranscriptInfo)) (pct : Nat)
        (msg : Option String),
      PollEvent.callbackTick pct msg ∉
        (transcribe_audio CallbackKind.none cr sr).1) := by
  refine ⟨?_, ?_, ?_, ?_⟩
  · intro cr sr
    simp [transcribe_audio]
  · intro cb cr sr hcb
    match cr with
    | .transcriptionError m p => simp [transcribe_audio]
    | .exn m => simp [transcribe_audio]
    | .ok u =>
      cases cb with
      | async => exact absurd rfl hcb
      | sync => simpa [transcribe_audio] using pollEvents_no_spawn .sync false sr
      | none =>
        simpa [transcribe_audio] using
          pollEvents_no_spawn CallbackKind.none false sr
  · intro cr sr pct msg hmem
    exact pollEvents_sync_tick_shape sr pct msg
      (by simpa [transcribe_audio] using hmem)
  · intro cr sr pct msg
    match cr with
    | .transcriptionError m p => simp [transcribe_audio]
    | .exn m => simp [transcribe_audio]
    | .ok u =>
      simpa [transcribe_audio] using
        pollEvents_none_no_tick false sr pct msg

/-- Witness for C10: concrete runs for each conjunct. -/
theorem estimator_spawn_iff_async_callback_witness :
    PollEvent.spawnTask ∈ (transcribe_audio .async (.ok (some "id")) []).1 ∧
    PollEvent.spawnTask ∉ (transcribe_audio .sync (.ok (some "id")) []).1 ∧
    ((100 = 100 ∧ (Option.none : Option String) = Option.none) ∨
      (100 = 95 ∧ ∃ code,
        (Option.none : Option String) = some (get_error_message code))) ∧
    PollEvent.callbackTick 50 Option.none ∉
      (transcribe_audio CallbackKind.none (.ok (some "id"))
        [.ok ⟨"processing", Option.none, Option.none⟩]).1 := by
  have h := estimator_spawn_iff_async_callback
  exact ⟨h.1 (some "id") [], h.2.1 .sync (.ok (some "id")) [] (by decide),
    h.2.2.1 (some "id") [.ok ⟨"completed", some "hello", Option.none⟩] 100
      Option.none (by decide),
    h.2.2.2 (.ok (some "id")) [.ok ⟨"processing", Option.none, Option.none⟩]
      50 Option.none⟩

end BBTransBot
